import Mathlib

/-! ## Verification of the sensor-dashboard data-shaping logic

Shallow embedding of the two Dash applications of this repository:

* `src/app_metrics.py`   — time-series viewer (`load_data`, `update_graph`,
  `download_graph`);
* `src/app_corruption.py` — weekly corruption heatmap (`update_heatmap`).

Dataframes are embedded as Lean lists of row structures; the channel-sensor
columns of a row form an association list from column name to an optional
value (`none` embeds SQL NULL / pandas NaN).  An inner `pd.merge` is embedded
as `innerJoin`: for each left row, in left order, all right rows with the same
key (exactly the pandas inner-merge semantics).  Machine floats of the source
are embedded as rationals.
-/

set_option autoImplicit false

namespace Dashboard

/-- A timestamp, split into a calendar date (day index, as the code only ever
compares and buckets at day granularity via the date accessor and the daily
resampling) and a time-of-day component. -/
structure Timestamp where
  date : Int
  tod : Nat
deriving DecidableEq, Repr

/-- A row of the `main_data` table: identifier and timestamp
(`id`, `time` columns used by the code). -/
structure MainRow where
  id : Nat
  time : Timestamp
deriving DecidableEq, Repr

/-- A row of a metric table (one of the eleven statistical metrics):
identifier plus one value per channel-sensor column. -/
structure MetRow where
  id : Nat
  cols : List (String × Option ℚ)
deriving DecidableEq, Repr

/-- Column access on a metric row (first binding wins, as in a dataframe
where column names are unique). -/
def MetRow.col (r : MetRow) (c : String) : Option ℚ :=
  (r.cols.find? (fun p => p.1 == c)).bind Prod.snd

/-- A row of the `rpm` table: identifier plus channel-sensor readings
(the code only reads column `ch1s1`). -/
structure RpmRow where
  id : Nat
  cols : List (String × Option ℚ)
deriving DecidableEq, Repr

/-- Column access on an rpm row. -/
def RpmRow.col (r : RpmRow) (c : String) : Option ℚ :=
  (r.cols.find? (fun p => p.1 == c)).bind Prod.snd

/-- Embedding of `pd.merge(left, right, on=key, how=inner)`: for each left
row in left order, pair it with every right row whose key matches (pandas
preserves the order of the left keys for inner merges). -/
def innerJoin {α β : Type} (left : List α) (right : List β)
    (kl : α → Nat) (kr : β → Nat) : List (α × β) :=
  left.flatMap fun l => (right.filter fun r => kr r == kl l).map fun r => (l, r)

/-- Embedding of `load_data` of `src/app_metrics.py`, lines 29–58: read
`main_data`, `rpm` and the table of the selected metric, inner-join
`main_data` with the metric table and with `rpm` on `id`, and return both
joined results.  The tables are parameters here (the Python reads them from
SQLite); timestamp parsing is the identity in the embedding since
`MainRow.time` is already structured. -/
def load_data (main : List MainRow) (rpm : List RpmRow) (metricTbl : List MetRow) :
    List (MainRow × MetRow) × List (MainRow × RpmRow) :=
  (innerJoin main metricTbl MainRow.id MetRow.id,
   innerJoin main rpm MainRow.id RpmRow.id)

/-! ## Weekly corruption heatmap (`src/app_corruption.py`) -/

/-- A row of the joined `main_data ⋈ corruption_status` frame, as consumed by
`update_heatmap`: the code reads `time.dt.year` (the `year` field),
`time.dt.isocalendar().week` (the `week` field), the row `id` (only counted,
so only its presence matters) and the selected channel-sensor flag column. -/
structure CRow where
  id : Nat
  year : Int
  week : Nat
  cols : List (String × Int)
deriving DecidableEq, Repr

/-- Column access on a corruption row. -/
def CRow.col (r : CRow) (s : String) : Option Int :=
  (r.cols.find? (fun p => p.1 == s)).map Prod.snd

/-- Embedding of `df_year[is_corrupted] = (df_year[selected_sensor] == 1).astype(int)`:
1 when the selected column holds 1, else 0 (a missing/NaN cell compares
unequal to 1 in pandas, hence 0). -/
def isCorrupted (s : String) (r : CRow) : Nat :=
  if r.col s = some 1 then 1 else 0

/-- Year filter `merged_df1[merged_df1.time.dt.year == selected_year]`. -/
def yearRows (rows : List CRow) (y : Int) : List CRow :=
  rows.filter fun r => r.year == y

/-- The rows of one ISO-week group of `df_year.groupby(week)`. -/
def weekRows (rows : List CRow) (w : Nat) : List CRow :=
  rows.filter fun r => r.week == w

/-- One row of `weekly_stats` after the left merge with weeks 1–53 and
`fillna(0)`. -/
structure WeekStat where
  week : Nat
  total : Nat
  corrupted : Nat
  pct : ℚ
deriving DecidableEq, Repr

/-- The `weekly_stats` entry for week `w` after the groupby aggregation
(count of `id`, sum of `is_corrupted`), the percentage column, the left merge
against weeks 1–53 and `fillna(0)`: a week with no rows gets `(0, 0, 0)`, a
week with rows gets its count, its number of flagged rows, and
`corrupted / total * 100`. -/
def mergedStat (rows : List CRow) (s : String) (w : Nat) : WeekStat :=
  let g := weekRows rows w
  let t := g.length
  let c := (g.map (isCorrupted s)).sum
  if t = 0 then ⟨w, 0, 0, 0⟩ else ⟨w, t, c, (c : ℚ) / (t : ℚ) * 100⟩

/-- The tooltip text written into `matrix_text[row, col]`. -/
def cellText (st : WeekStat) : String :=
  "Week " ++ toString st.week ++ "<br>" ++ toString st.total ++ " total<br>"
    ++ toString st.corrupted ++ " corrupted"

/-- A 7×8 numpy matrix, embedded as a function of (row, column). -/
def Grid (α : Type) : Type := Nat → Nat → α

/-- Assignment `matrix[r, c] = v`. -/
def Grid.write {α : Type} (g : Grid α) (r c : Nat) (v : α) : Grid α :=
  fun r' c' => if r' = r ∧ c' = c then v else g r' c'

/-- The population loop of `update_heatmap` (`for i in range(53): ...`),
run for the first `n` values of `i`: starting from `np.zeros((7, 8))` and an
empty text matrix, write the percentage and tooltip of week `i+1` into cell
`(6 - i // 8, i % 8)`.  (`i < len(weekly_stats)` is always true since the
left merge yields exactly 53 rows, ordered by week; `weekly_stats.iloc[i]`
is week `i+1`.) -/
def popLoop (stats : Nat → WeekStat) : Nat → Grid ℚ × Grid (Option String)
  | 0 => (fun _ _ => (0 : ℚ), fun _ _ => none)
  | n + 1 =>
      let p := popLoop stats n
      (Grid.write p.1 (6 - n / 8) (n % 8) (stats n).pct,
       Grid.write p.2 (6 - n / 8) (n % 8) (some (cellText (stats n))))

/-- Embedding of `update_heatmap` of `src/app_corruption.py`, lines 96–134, up to the data
actually handed to `go.Heatmap` (`z=matrix_data`, `text=matrix_text`): filter
to the selected year, aggregate per ISO week, and populate the 7×8 grids. -/
def update_heatmap (rows : List CRow) (year : Int) (s : String) :
    Grid ℚ × Grid (Option String) :=
  popLoop (fun i => mergedStat (yearRows rows year) s (i + 1)) 53

/-- All 56 cell coordinates of the 7×8 grid. -/
def gridCells : List (Nat × Nat) :=
  (List.range 7).flatMap fun r => (List.range 8).map fun c => (r, c)

/-- The number of grid cells that received tooltip text (i.e. were written by
the population loop). -/
def populatedCount (rows : List CRow) (year : Int) (s : String) : Nat :=
  gridCells.countP fun p => ((update_heatmap rows year s).2 p.1 p.2).isSome

/-! ## Time-series viewer (`src/app_metrics.py`, `update_graph`) -/

/-- The `CHANNELS` constant of `src/app_metrics.py`. -/
def CHANNELS : List String := ["ch1", "ch2", "ch3"]

/-- The `COLORS` dict of `src/app_metrics.py` (only ever read at the three
channel keys). -/
def COLORS (ch : String) : String :=
  if ch = "ch1" then "blue"
  else if ch = "ch2" then "red"
  else if ch = "ch3" then "green"
  else ""

/-- The predicate of the date mask, lines 193–194: the timestamp of the row,
truncated to its calendar date, lies between the start and end dates of the
picker inclusively. -/
def datePred (startD endD : Int) (r : MainRow × MetRow) : Bool :=
  decide (startD ≤ r.1.time.date) && decide (r.1.time.date ≤ endD)

/-- Date filtering of `merged_df1` (line 195). -/
def dateFilter (rows : List (MainRow × MetRow)) (startD endD : Int) :
    List (MainRow × MetRow) :=
  rows.filter (datePred startD endD)

/-- The predicate of the RPM mask, line 198:
`(merged_df2.ch1s1 >= rpm_bin) & (merged_df2.ch1s1 < rpm_bin + 0.5)`
(a NaN reading compares false on both sides in pandas, hence `none ↦ false`). -/
def rpmPred (B : ℚ) (r : MainRow × RpmRow) : Bool :=
  match r.2.col "ch1s1" with
  | some v => decide (B ≤ v) && decide (v < B + 1 / 2)
  | none => false

/-- RPM filtering of `merged_df2` (line 199). -/
def rpmFilter (rows : List (MainRow × RpmRow)) (B : ℚ) :
    List (MainRow × RpmRow) :=
  rows.filter (rpmPred B)

/-- Line 202: the merge of `df_filtered` with the id/time projection of
`rpm_filtered` on the pair of columns id and time
— keep, in left order, each date-filtered row once per RPM-filtered row
carrying the same `(id, time)` pair (only left columns survive, since the
right frame is restricted to the join keys). -/
def mergeOnIdTime (lhs : List (MainRow × MetRow)) (rhs : List (MainRow × RpmRow)) :
    List (MainRow × MetRow) :=
  lhs.flatMap fun l =>
    (rhs.filter fun r => decide (r.1.id = l.1.id ∧ r.1.time = l.1.time)).map fun _ => l

/-- Embedding of `final_df.set_index(time)[col]`: the (day, value) points of
one channel-sensor column. -/
def seriesOf (rows : List (MainRow × MetRow)) (colName : String) :
    List (Int × Option ℚ) :=
  rows.map fun r => (r.1.time.date, r.2.col colName)

/-- The non-null values falling on day `d`. -/
def dayValues (pts : List (Int × Option ℚ)) (d : Int) : List ℚ :=
  pts.filterMap fun p => if p.1 = d then p.2 else none

/-- Embedding of `resample(D).mean()`: one slot per calendar day from the
earliest to the latest point, holding the mean of the non-null values of that
day, or `none` (NaN) for a day with no value. -/
def dailyResample (pts : List (Int × Option ℚ)) : List (Option ℚ) :=
  match (pts.map Prod.fst).min?, (pts.map Prod.fst).max? with
  | some lo, some hi =>
      (List.range (hi - lo + 1).toNat).map fun k =>
        let vs := dayValues pts (lo + k)
        if vs.length = 0 then none else some (vs.sum / (vs.length : ℚ))
  | _, _ => []

/-- Embedding of `rolling(window=w, min_periods=1).mean()`: at each position, the mean of
the non-null entries among the trailing `w` slots (`none` when the window
holds no value at all, which for `min_periods=1` is the only NaN case). -/
def rollingMean (window : Nat) (xs : List (Option ℚ)) : List (Option ℚ) :=
  (List.range xs.length).map fun i =>
    let vs := ((xs.take (i + 1)).drop (i + 1 - window)).filterMap id
    if vs.length = 0 then none else some (vs.sum / (vs.length : ℚ))

/-- One `go.Scatter` trace as built in the loop of lines 209–224 (the fields
the code sets; the x values are the resample index, i.e. consecutive days). -/
structure Trace where
  ys : List (Option ℚ)
  mode : String
  name : String
  lineColor : String
  markerColor : String
  connectgaps : Bool
  opacity : ℚ
deriving DecidableEq, Repr

/-- Embedding of `update_graph` of `src/app_metrics.py`, lines 188–237, up to the traces
added to the figure: date-filter the metric frame, RPM-filter the rpm frame,
merge them back on `(id, time)`, then — for `ch` in `CHANNELS`, i.e.
regardless of any channel selection, which the callback never receives — add
one lines+markers trace of the daily-resampled, rolling-averaged column
`ch + selected_sensor` in the fixed color of the channel.  (The two joined
frames are parameters; in the source they come from `load_data`.  The
`sort_values` calls are dropped: resampling groups by day, so the order of
the rows does not affect any trace field.) -/
def update_graph (merged1 : List (MainRow × MetRow)) (merged2 : List (MainRow × RpmRow))
    (selected_sensor : String) (rpm_bin : ℚ) (startD endD : Int) (ma_days : Nat) :
    List Trace :=
  let df_filtered := dateFilter merged1 startD endD
  let rpm_filtered := rpmFilter merged2 rpm_bin
  let final_df := mergeOnIdTime df_filtered rpm_filtered
  CHANNELS.map fun ch =>
    { ys := rollingMean ma_days (dailyResample (seriesOf final_df (ch ++ selected_sensor))),
      mode := "lines+markers",
      name := "Channel " ++ ch ++ " (" ++ toString ma_days ++ "-day MA)",
      lineColor := COLORS ch,
      markerColor := COLORS ch,
      connectgaps := true,
      opacity := 6 / 10 }

/-! ## Export (`src/app_metrics.py`, `download_graph`) -/

/-- The rendered image handed to `to_image` (line 254): the figure that is in
the `sensor-graph` component right now, plus the fixed raster parameters. -/
structure RenderedImage where
  figure : List Trace
  format : String
  width : Nat
  height : Nat
  scale : ℚ
deriving DecidableEq, Repr

/-- The value returned through `dcc.send_bytes`: a filename and the rendered
image bytes (embedded by the image description itself). -/
structure DownloadPayload where
  filename : String
  content : RenderedImage
deriving DecidableEq, Repr

/-- How Python prints the bin edges of the dropdown: the edges live on the
half-unit lattice `0.0, 0.5, …` (`BINS = np.arange(0, 18, 0.5)`), so an edge
is embedded as its number of half units, printed as in an f-string
(`10.0`, `10.5`, …). -/
def showHalfUnits (n : Nat) : String :=
  toString (n / 2) ++ (if n % 2 = 0 then ".0" else ".5")

/-- Embedding of `download_graph` of `src/app_metrics.py`, lines 251–261: when the button
has been clicked at least once, render the current figure as a 1920×1080 PNG
at 2× scale under the name
`{metric}_Sensor_{sensor}_RPM_{bin}-{bin+0.5}_MA_{days}days.png`;
otherwise (`if n_clicks:` false) produce nothing. -/
def download_graph (n_clicks : Nat) (selected_metric selected_sensor : String)
    (rpm_bin_halves ma_days : Nat) (figure : List Trace) : Option DownloadPayload :=
  if n_clicks ≠ 0 then
    some { filename := selected_metric ++ "_Sensor_" ++ selected_sensor ++ "_RPM_"
             ++ showHalfUnits rpm_bin_halves ++ "-" ++ showHalfUnits (rpm_bin_halves + 1)
             ++ "_MA_" ++ toString ma_days ++ "days.png",
           content := { figure := figure, format := "png",
                        width := 1920, height := 1080, scale := 2 } }
  else none

/-- Occurrence of `needle` as a contiguous substring of `hay`. -/
def strContains (hay needle : String) : Prop :=
  ∃ u v : String, hay = u ++ needle ++ v

/-! ## Generic facts about `innerJoin` -/

theorem mem_innerJoin {α β : Type} {left : List α} {right : List β}
    {kl : α → Nat} {kr : β → Nat} {l : α} {r : β} :
    (l, r) ∈ innerJoin left right kl kr ↔ l ∈ left ∧ r ∈ right ∧ kr r = kl l := by
  simp only [innerJoin, List.mem_flatMap, List.mem_map, List.mem_filter, beq_iff_eq,
    Prod.mk.injEq]
  constructor
  · rintro ⟨a, ha, b, ⟨hb, hk⟩, hl, hr⟩
    subst hl; subst hr
    exact ⟨ha, hb, hk⟩
  · rintro ⟨ha, hb, hk⟩
    exact ⟨l, ha, r, ⟨hb, hk⟩, rfl, rfl⟩

theorem filter_key_length_le_one {β : Type} {right : List β} {kr : β → Nat}
    (h : (right.map kr).Nodup) (x : Nat) :
    (right.filter fun r => kr r == x).length ≤ 1 := by
  induction right with
  | nil => simp
  | cons b bs ih =>
    rw [List.map_cons, List.nodup_cons] at h
    by_cases hb : kr b = x
    · have : (bs.filter fun r => kr r == x) = [] := by
        apply List.filter_eq_nil_iff.mpr
        intro r hr hkr
        have h1 : kr r = x := by simpa using hkr
        apply h.1
        have h2 := List.mem_map_of_mem kr hr
        rwa [h1, ← hb] at h2
      simp [List.filter_cons, hb, this]
    · have := ih h.2
      simp [List.filter_cons, hb]
      omega

theorem innerJoin_map_fst_sublist {α β : Type} {left : List α} {right : List β}
    {kl : α → Nat} {kr : β → Nat} (h : (right.map kr).Nodup) :
    ((innerJoin left right kl kr).map Prod.fst).Sublist left := by
  induction left with
  | nil => simp [innerJoin]
  | cons a as ih =>
    have hlen := filter_key_length_le_one h (kl a)
    rw [innerJoin, List.flatMap_cons, List.map_append]
    rcases hf : (right.filter fun r => kr r == kl a) with _ | ⟨b, bs⟩
    · simpa [hf] using List.Sublist.cons a ih
    · rw [hf] at hlen
      have hbs : bs = [] := by
        simp only [List.length_cons] at hlen
        exact List.eq_nil_of_length_eq_zero (by omega)
      subst hbs
      simpa using List.Sublist.cons₂ a ih

theorem innerJoin_length_le_left {α β : Type} {left : List α} {right : List β}
    {kl : α → Nat} {kr : β → Nat} (h : (right.map kr).Nodup) :
    (innerJoin left right kl kr).length ≤ left.length := by
  have := (@innerJoin_map_fst_sublist α β left right kl kr h).length_le
  simpa using this

theorem innerJoin_key_eq {α β : Type} {left : List α} {right : List β}
    {kl : α → Nat} {kr : β → Nat} {p : α × β} (hp : p ∈ innerJoin left right kl kr) :
    kr p.2 = kl p.1 := by
  obtain ⟨l, r⟩ := p
  exact (mem_innerJoin.mp hp).2.2

theorem innerJoin_length_le_right {α β : Type} {left : List α} {right : List β}
    {kl : α → Nat} {kr : β → Nat}
    (hl : (left.map kl).Nodup) (hr : (right.map kr).Nodup) :
    (innerJoin left right kl kr).length ≤ right.length := by
  set J := innerJoin left right kl kr with hJ
  have h1 : (J.map (fun p => kl p.1)).Sublist (left.map kl) := by
    have := (@innerJoin_map_fst_sublist α β left right kl kr hr).map kl
    simpa [hJ, Function.comp] using this
  have h2 : (J.map (fun p => kl p.1)).Nodup := h1.nodup hl
  have h3 : J.map (fun p => kr p.2) = J.map (fun p => kl p.1) :=
    List.map_congr_left (fun p hp => innerJoin_key_eq hp)
  have h4 : ((J.map Prod.snd).map kr).Nodup := by
    rw [List.map_map]
    show (List.map (fun p => kr p.2) J).Nodup
    rw [h3]
    exact h2
  have h5 : (J.map Prod.snd).Nodup := h4.of_map kr
  have h6 : J.map Prod.snd ⊆ right := by
    intro r hr'
    obtain ⟨p, hp, hpr⟩ := List.mem_map.mp hr'
    obtain ⟨a, b⟩ := p
    subst hpr
    exact (mem_innerJoin.mp hp).2.1
  have := (h5.subperm h6).length_le
  simpa using this

/-! ## Claims C4 and C7 -/

/-- Claim C4: for tables whose identifiers are unique, the inner join of
sample rows with metric rows performed by the loader keeps exactly the pairs
whose identifier occurs in both tables, and the joined result has at most
`min (#samples) (#metric rows)` rows. -/
theorem C4_inner_join_semantics (main : List MainRow) (rpm : List RpmRow)
    (met : List MetRow) (l : MainRow) (r : MetRow)
    (h1 : (main.map MainRow.id).Nodup) (h2 : (met.map MetRow.id).Nodup) :
    ((l, r) ∈ (load_data main rpm met).1 ↔ l ∈ main ∧ r ∈ met ∧ r.id = l.id)
    ∧ (load_data main rpm met).1.length ≤ min main.length met.length := by
  refine ⟨mem_innerJoin, ?_⟩
  have hL := @innerJoin_length_le_left MainRow MetRow main met MainRow.id MetRow.id h2
  have hR := innerJoin_length_le_right h1 h2
  exact le_min hL hR

theorem C4_inner_join_semantics_witness :
    (([⟨1, ⟨0, 0⟩⟩, ⟨2, ⟨0, 0⟩⟩] : List MainRow).map MainRow.id).Nodup
    ∧ (([⟨2, []⟩, ⟨3, []⟩] : List MetRow).map MetRow.id).Nodup
    ∧ (((⟨2, ⟨0, 0⟩⟩, ⟨2, []⟩) ∈
          (load_data [⟨1, ⟨0, 0⟩⟩, ⟨2, ⟨0, 0⟩⟩] [] [⟨2, []⟩, ⟨3, []⟩]).1 ↔
        (⟨2, ⟨0, 0⟩⟩ : MainRow) ∈ [⟨1, ⟨0, 0⟩⟩, ⟨2, ⟨0, 0⟩⟩]
        ∧ (⟨2, []⟩ : MetRow) ∈ [⟨2, []⟩, ⟨3, []⟩] ∧ (2 : Nat) = 2)
      ∧ (load_data [⟨1, ⟨0, 0⟩⟩, ⟨2, ⟨0, 0⟩⟩] [] [⟨2, []⟩, ⟨3, []⟩]).1.length ≤
          min 2 2) :=
  ⟨by decide, by decide,
    C4_inner_join_semantics [⟨1, ⟨0, 0⟩⟩, ⟨2, ⟨0, 0⟩⟩] [] [⟨2, []⟩, ⟨3, []⟩]
      ⟨2, ⟨0, 0⟩⟩ ⟨2, []⟩ (by decide) (by decide)⟩

/-- Claim C7: loading a metric whose table has no row matching any sample
identifier yields an empty joined result, while the sample-with-RPM result
does not depend on the metric table at all (the embedding is total, so no
error is raised). -/
theorem C7_empty_metric_join (main : List MainRow) (rpm : List RpmRow)
    (met met' : List MetRow)
    (h : ∀ r ∈ met, ∀ m ∈ main, r.id ≠ m.id) :
    (load_data main rpm met).1 = []
    ∧ (load_data main rpm met).2 = (load_data main rpm met').2 := by
  refine ⟨?_, rfl⟩
  apply List.eq_nil_iff_forall_not_mem.mpr
  rintro ⟨l, r⟩ hmem
  obtain ⟨hl, hr, hk⟩ := mem_innerJoin.mp hmem
  exact h r hr l hl hk

theorem C7_empty_metric_join_witness :
    (∀ r ∈ ([⟨5, []⟩] : List MetRow), ∀ m ∈ ([⟨1, ⟨0, 0⟩⟩] : List MainRow), r.id ≠ m.id)
    ∧ ((load_data [⟨1, ⟨0, 0⟩⟩] [⟨1, []⟩] [⟨5, []⟩]).1 = []
       ∧ (load_data [⟨1, ⟨0, 0⟩⟩] [⟨1, []⟩] [⟨5, []⟩]).2 =
           (load_data [⟨1, ⟨0, 0⟩⟩] [⟨1, []⟩] []).2) :=
  ⟨by decide,
    C7_empty_metric_join [⟨1, ⟨0, 0⟩⟩] [⟨1, []⟩] [⟨5, []⟩] [] (by decide)⟩

/-! ## Facts about the population loop -/

theorem cell_coords_inj {i j : Nat} (hi : i < 53) (hj : j < 53)
    (h1 : 6 - i / 8 = 6 - j / 8) (h2 : i % 8 = j % 8) : i = j := by
  omega

theorem popLoop_data_lookup (stats : Nat → WeekStat) {n i : Nat}
    (hn : n ≤ 53) (hi : i < n) :
    (popLoop stats n).1 (6 - i / 8) (i % 8) = (stats i).pct := by
  induction n with
  | zero => omega
  | succ m ih =>
    simp only [popLoop]
    rcases Nat.lt_succ_iff_lt_or_eq.mp hi with h | h
    · show (if 6 - i / 8 = 6 - m / 8 ∧ i % 8 = m % 8 then _ else _) = _
      rw [if_neg, ih (by omega) h]
      rintro ⟨h1, h2⟩
      exact absurd (cell_coords_inj (by omega) (by omega) h1 h2) (by omega)
    · subst h
      show (if 6 - i / 8 = 6 - i / 8 ∧ i % 8 = i % 8 then _ else _) = _
      rw [if_pos ⟨rfl, rfl⟩]

theorem popLoop_text_lookup (stats : Nat → WeekStat) {n i : Nat}
    (hn : n ≤ 53) (hi : i < n) :
    (popLoop stats n).2 (6 - i / 8) (i % 8) = some (cellText (stats i)) := by
  induction n with
  | zero => omega
  | succ m ih =>
    simp only [popLoop]
    rcases Nat.lt_succ_iff_lt_or_eq.mp hi with h | h
    · show (if 6 - i / 8 = 6 - m / 8 ∧ i % 8 = m % 8 then _ else _) = _
      rw [if_neg, ih (by omega) h]
      rintro ⟨h1, h2⟩
      exact absurd (cell_coords_inj (by omega) (by omega) h1 h2) (by omega)
    · subst h
      show (if 6 - i / 8 = 6 - i / 8 ∧ i % 8 = i % 8 then _ else _) = _
      rw [if_pos ⟨rfl, rfl⟩]

theorem popLoop_text_isSome (stats : Nat → WeekStat) (n r c : Nat) :
    ((popLoop stats n).2 r c).isSome = true
      ↔ ∃ i, i < n ∧ 6 - i / 8 = r ∧ i % 8 = c := by
  induction n with
  | zero =>
    simp only [popLoop, Option.isSome_none, Bool.false_eq_true, false_iff]
    rintro ⟨i, hi, -⟩
    omega
  | succ m ih =>
    simp only [popLoop]
    show ((if r = 6 - m / 8 ∧ c = m % 8 then _ else _) : Option String).isSome = true ↔ _
    by_cases h : r = 6 - m / 8 ∧ c = m % 8
    · rw [if_pos h]
      simp only [Option.isSome_some, true_iff]
      exact ⟨m, Nat.lt_succ_self m, h.1.symm, h.2.symm⟩
    · rw [if_neg h, ih]
      constructor
      · rintro ⟨i, hi, hcell⟩
        exact ⟨i, Nat.lt_succ_of_lt hi, hcell⟩
      · rintro ⟨i, hi, hcell⟩
        rcases Nat.lt_succ_iff_lt_or_eq.mp hi with h' | h'
        · exact ⟨i, h', hcell⟩
        · subst h'
          exact absurd ⟨hcell.1.symm, hcell.2.symm⟩ h

theorem popLoop_untouched (stats : Nat → WeekStat) {n r c : Nat}
    (h : ∀ i, i < n → ¬(6 - i / 8 = r ∧ i % 8 = c)) :
    (popLoop stats n).1 r c = 0 ∧ (popLoop stats n).2 r c = none := by
  induction n with
  | zero => exact ⟨rfl, rfl⟩
  | succ m ih =>
    simp only [popLoop]
    have hm : ¬(r = 6 - m / 8 ∧ c = m % 8) := by
      rintro ⟨h1, h2⟩
      exact h m (Nat.lt_succ_self m) ⟨h1.symm, h2.symm⟩
    have prev := ih fun i hi => h i (Nat.lt_succ_of_lt hi)
    constructor
    · show (if r = 6 - m / 8 ∧ c = m % 8 then _ else _) = _
      rw [if_neg hm]
      exact prev.1
    · show (if r = 6 - m / 8 ∧ c = m % 8 then _ else _) = _
      rw [if_neg hm]
      exact prev.2

theorem populatedCount_eq_53 (rows : List CRow) (year : Int) (s : String) :
    populatedCount rows year s = 53 := by
  unfold populatedCount
  have hcongr : ∀ p ∈ gridCells,
      ((((update_heatmap rows year s).2 p.1 p.2).isSome) = true)
        ↔ (decide (∃ i ∈ List.range 53, 6 - i / 8 = p.1 ∧ i % 8 = p.2) = true) := by
    intro p _
    have h1 : ((update_heatmap rows year s).2 p.1 p.2).isSome = true
        ↔ ∃ i, i < 53 ∧ 6 - i / 8 = p.1 ∧ i % 8 = p.2 :=
      popLoop_text_isSome (fun i => mergedStat (yearRows rows year) s (i + 1)) 53 p.1 p.2
    rw [h1, decide_eq_true_eq]
    simp [List.mem_range]
  rw [List.countP_congr hcongr]
  decide

theorem mergedStat_corrupted_le_total (rows : List CRow) (s : String) (w : Nat) :
    (mergedStat rows s w).corrupted ≤ (mergedStat rows s w).total := by
  unfold mergedStat
  by_cases ht : (weekRows rows w).length = 0
  · simp [ht]
  · rw [if_neg ht]
    have hb : ∀ x ∈ (weekRows rows w).map (isCorrupted s), x ≤ 1 := by
      intro x hx
      obtain ⟨r, -, hr⟩ := List.mem_map.mp hx
      unfold isCorrupted at hr
      split at hr <;> omega
    have := List.sum_le_card_nsmul ((weekRows rows w).map (isCorrupted s)) 1 hb
    simpa using this

theorem mergedStat_pct_bounds (rows : List CRow) (s : String) (w : Nat) :
    0 ≤ (mergedStat rows s w).pct ∧ (mergedStat rows s w).pct ≤ 100 := by
  have hct := mergedStat_corrupted_le_total rows s w
  unfold mergedStat at hct ⊢
  by_cases ht : (weekRows rows w).length = 0
  · simp [ht]
  · rw [if_neg ht] at hct ⊢
    simp only at hct ⊢
    set t := (weekRows rows w).length with htdef
    set c := ((weekRows rows w).map (isCorrupted s)).sum with hcdef
    have htpos : (0 : ℚ) < (t : ℚ) := by
      have : 0 < t := Nat.pos_of_ne_zero ht
      exact_mod_cast this
    constructor
    · positivity
    · have hdiv : (c : ℚ) / (t : ℚ) ≤ 1 := by
        rw [div_le_one htpos]
        exact_mod_cast hct
      calc (c : ℚ) / (t : ℚ) * 100 ≤ 1 * 100 := by
            apply mul_le_mul_of_nonneg_right hdiv
            norm_num
        _ = 100 := by norm_num

/-! ## Claims C2, C3 and C9 -/

/-- Claim C2: for every week `w` in 1..53 the heatmap writes the percentage
of week `w` at grid cell `(6 - (w-1)/8, (w-1) % 8)`; in particular the cell
of week 1 is `(6, 0)` and the cell of week 53 is `(0, 4)`. -/
theorem C2_week_to_cell (rows : List CRow) (year : Int) (s : String) (w : Nat)
    (hw1 : 1 ≤ w) (hw2 : w ≤ 53) :
    (update_heatmap rows year s).1 (6 - (w - 1) / 8) ((w - 1) % 8)
        = (mergedStat (yearRows rows year) s w).pct
    ∧ (6 - (1 - 1) / 8 = 6 ∧ (1 - 1) % 8 = 0)
    ∧ (6 - (53 - 1) / 8 = 0 ∧ (53 - 1) % 8 = 4) := by
  refine ⟨?_, ⟨rfl, rfl⟩, ⟨rfl, rfl⟩⟩
  have h := popLoop_data_lookup
    (fun i => mergedStat (yearRows rows year) s (i + 1))
    (n := 53) (i := w - 1) (le_refl 53) (by omega)
  simp only [Nat.sub_add_cancel hw1] at h
  exact h

theorem C2_week_to_cell_witness :
    (1 ≤ 1 ∧ 1 ≤ 53)
    ∧ ((update_heatmap [] 2021 "ch1s1").1 (6 - (1 - 1) / 8) ((1 - 1) % 8)
          = (mergedStat (yearRows [] 2021) "ch1s1" 1).pct
        ∧ (6 - (1 - 1) / 8 = 6 ∧ (1 - 1) % 8 = 0)
        ∧ (6 - (53 - 1) / 8 = 0 ∧ (53 - 1) % 8 = 4)) :=
  ⟨⟨le_refl 1, by omega⟩, C2_week_to_cell [] 2021 "ch1s1" 1 (le_refl 1) (by omega)⟩

/-- Claim C3: the heatmap grid always has exactly 53 populated cells, and every
populated cell holds some week `w` in 1..53 with its tooltip text and
percentage, where `corrupted ≤ total` (counts are naturals, hence both are
`≥ 0`) and the percentage lies in `[0, 100]`. -/
theorem C3_grid_well_formed (rows : List CRow) (year : Int) (s : String)
    (r c : Nat) (hp : ((update_heatmap rows year s).2 r c).isSome = true) :
    populatedCount rows year s = 53
    ∧ ∃ w, 1 ≤ w ∧ w ≤ 53
        ∧ (update_heatmap rows year s).2 r c
            = some (cellText (mergedStat (yearRows rows year) s w))
        ∧ (update_heatmap rows year s).1 r c
            = (mergedStat (yearRows rows year) s w).pct
        ∧ (mergedStat (yearRows rows year) s w).corrupted
            ≤ (mergedStat (yearRows rows year) s w).total
        ∧ 0 ≤ (mergedStat (yearRows rows year) s w).pct
        ∧ (mergedStat (yearRows rows year) s w).pct ≤ 100 := by
  refine ⟨populatedCount_eq_53 rows year s, ?_⟩
  have h1 : ((update_heatmap rows year s).2 r c).isSome = true
      ↔ ∃ i, i < 53 ∧ 6 - i / 8 = r ∧ i % 8 = c :=
    popLoop_text_isSome (fun i => mergedStat (yearRows rows year) s (i + 1)) 53 r c
  obtain ⟨i, hi, hr, hc⟩ := h1.mp hp
  refine ⟨i + 1, by omega, by omega, ?_, ?_, ?_, ?_⟩
  · have h := popLoop_text_lookup
      (fun j => mergedStat (yearRows rows year) s (j + 1))
      (n := 53) (i := i) (le_refl 53) hi
    rw [hr, hc] at h
    exact h
  · have h := popLoop_data_lookup
      (fun j => mergedStat (yearRows rows year) s (j + 1))
      (n := 53) (i := i) (le_refl 53) hi
    rw [hr, hc] at h
    exact h
  · exact mergedStat_corrupted_le_total (yearRows rows year) s (i + 1)
  · exact mergedStat_pct_bounds (yearRows rows year) s (i + 1)

theorem C3_grid_well_formed_witness :
    (((update_heatmap [⟨1, 2021, 1, [("ch1s1", 1)]⟩] 2021 "ch1s1").2 6 0).isSome = true)
    ∧ (populatedCount [⟨1, 2021, 1, [("ch1s1", 1)]⟩] 2021 "ch1s1" = 53
       ∧ ∃ w, 1 ≤ w ∧ w ≤ 53
          ∧ (update_heatmap [⟨1, 2021, 1, [("ch1s1", 1)]⟩] 2021 "ch1s1").2 6 0
              = some (cellText (mergedStat
                  (yearRows [⟨1, 2021, 1, [("ch1s1", 1)]⟩] 2021) "ch1s1" w))
          ∧ (update_heatmap [⟨1, 2021, 1, [("ch1s1", 1)]⟩] 2021 "ch1s1").1 6 0
              = (mergedStat (yearRows [⟨1, 2021, 1, [("ch1s1", 1)]⟩] 2021) "ch1s1" w).pct
          ∧ (mergedStat (yearRows [⟨1, 2021, 1, [("ch1s1", 1)]⟩] 2021) "ch1s1" w).corrupted
              ≤ (mergedStat (yearRows [⟨1, 2021, 1, [("ch1s1", 1)]⟩] 2021) "ch1s1" w).total
          ∧ 0 ≤ (mergedStat (yearRows [⟨1, 2021, 1, [("ch1s1", 1)]⟩] 2021) "ch1s1" w).pct
          ∧ (mergedStat (yearRows [⟨1, 2021, 1, [("ch1s1", 1)]⟩] 2021) "ch1s1" w).pct ≤ 100) :=
  ⟨by decide, C3_grid_well_formed [⟨1, 2021, 1, [("ch1s1", 1)]⟩] 2021 "ch1s1" 6 0 (by decide)⟩

/-- Claim C9: grid cells `(0, 5)`, `(0, 6)`, `(0, 7)` (loop indices 53–55) are
never written: their value stays 0 and their text stays unset, and a populated
week whose corruption percentage is 0 carries the very same numeric value as
such a blank cell (hence the same heatmap color, which is a function of the
value alone). -/
theorem C9_blank_cells (rows : List CRow) (year : Int) (s : String) (c w : Nat)
    (hc1 : 5 ≤ c) (hc2 : c ≤ 7) (hw1 : 1 ≤ w) (hw2 : w ≤ 53)
    (hz : (mergedStat (yearRows rows year) s w).pct = 0) :
    (update_heatmap rows year s).1 0 c = 0
    ∧ (update_heatmap rows year s).2 0 c = none
    ∧ (update_heatmap rows year s).1 (6 - (w - 1) / 8) ((w - 1) % 8)
        = (update_heatmap rows year s).1 0 c := by
  have huntouched : ∀ i, i < 53 → ¬(6 - i / 8 = 0 ∧ i % 8 = c) := by
    rintro i hi ⟨h1, h2⟩
    omega
  have hu := popLoop_untouched
    (fun i => mergedStat (yearRows rows year) s (i + 1)) (n := 53) huntouched
  refine ⟨hu.1, hu.2, ?_⟩
  have h := popLoop_data_lookup
    (fun i => mergedStat (yearRows rows year) s (i + 1))
    (n := 53) (i := w - 1) (le_refl 53) (by omega)
  simp only [Nat.sub_add_cancel hw1] at h
  show (popLoop (fun i => mergedStat (yearRows rows year) s (i + 1)) 53).1
        (6 - (w - 1) / 8) ((w - 1) % 8)
      = (popLoop (fun i => mergedStat (yearRows rows year) s (i + 1)) 53).1 0 c
  rw [h, hz, hu.1]

theorem C9_blank_cells_witness :
    (5 ≤ 5 ∧ 5 ≤ 7 ∧ 1 ≤ 1 ∧ 1 ≤ 53
      ∧ (mergedStat (yearRows [] 2021) "ch1s1" 1).pct = 0)
    ∧ ((update_heatmap [] 2021 "ch1s1").1 0 5 = 0
       ∧ (update_heatmap [] 2021 "ch1s1").2 0 5 = none
       ∧ (update_heatmap [] 2021 "ch1s1").1 (6 - (1 - 1) / 8) ((1 - 1) % 8)
           = (update_heatmap [] 2021 "ch1s1").1 0 5) :=
  ⟨⟨by omega, by omega, by omega, by omega, by decide⟩,
    C9_blank_cells [] 2021 "ch1s1" 5 1 (by omega) (by omega) (by omega) (by omega)
      (by decide)⟩

/-! ## Claims C1, C5, C6 and C10 -/

/-- Claim C1, refuted by the code: the channel-selection dropdown is not an
input of the graph callback: whatever the user selects — here the failing
selection `["ch1"]` — `update_graph` draws one trace per channel of the fixed
list `CHANNELS`, so a figure for the selection `["ch1"]` still contains a
`ch2` trace (red) and a `ch3` trace (green). -/
theorem C1_all_channels_drawn :
    (update_graph [] [] "s1" 10 0 1 1).map Trace.name
        = ["Channel ch1 (1-day MA)", "Channel ch2 (1-day MA)", "Channel ch3 (1-day MA)"]
    ∧ (update_graph [] [] "s1" 10 0 1 1).map Trace.lineColor = ["blue", "red", "green"]
    ∧ (update_graph [] [] "s1" 10 0 1 1).length = 3
    ∧ "ch2" ∈ CHANNELS ∧ "ch2" ∉ (["ch1"] : List String) := by
  refine ⟨by decide, by decide, by decide, by decide, by decide⟩

theorem rollingMean_window_one (xs : List (Option ℚ)) : rollingMean 1 xs = xs := by
  apply List.ext_getElem
  · simp [rollingMean]
  · intro i h1 h2
    have hi : i < xs.length := h2
    simp only [rollingMean, List.getElem_map, List.getElem_range]
    have hslice : (xs.take (i + 1)).drop (i + 1 - 1) = [xs[i]] := by
      rw [Nat.add_sub_cancel, List.drop_take, Nat.add_sub_cancel_left,
        List.drop_eq_getElem_cons hi]
      rfl
    rw [hslice]
    rcases hx : xs[i] with _ | v
    · simp
    · simp

/-- Claim C5: applying the trailing rolling mean with window 1 (and
`min_periods=1`) to a daily-resampled series returns the series unchanged. -/
theorem C5_window_one_identity (pts : List (Int × Option ℚ)) :
    rollingMean 1 (dailyResample pts) = dailyResample pts :=
  rollingMean_window_one (dailyResample pts)

/-- Claim C6: for every bin edge `B`, RPM filtering keeps exactly the rows whose
`ch1s1` reading `v` exists and satisfies `B ≤ v < B + 0.5`, and no others. -/
theorem C6_rpm_bin_filter (rows : List (MainRow × RpmRow)) (B : ℚ)
    (r : MainRow × RpmRow) :
    r ∈ rpmFilter rows B
      ↔ r ∈ rows ∧ ∃ v, r.2.col "ch1s1" = some v ∧ B ≤ v ∧ v < B + 1 / 2 := by
  rw [rpmFilter, List.mem_filter]
  rcases hv : r.2.col "ch1s1" with _ | v
  · simp [rpmPred, hv]
  · simp [rpmPred, hv, and_assoc]

/-- Claim C10: date filtering is inclusive at both endpoints and compares at
calendar-date granularity: a row whose calendar date equals the start date
or the end date is kept whatever its time-of-day component. -/
theorem C10_date_filter_inclusive (rows : List (MainRow × MetRow))
    (startD endD : Int) (r : MainRow × MetRow)
    (hmem : r ∈ rows) (hrange : startD ≤ endD)
    (hedge : r.1.time.date = startD ∨ r.1.time.date = endD) :
    r ∈ dateFilter rows startD endD := by
  rw [dateFilter, List.mem_filter]
  refine ⟨hmem, ?_⟩
  unfold datePred
  rcases hedge with h | h <;> rw [h] <;> simp [hrange]

theorem C10_date_filter_inclusive_witness :
    ((⟨⟨1, ⟨0, 86399⟩⟩, ⟨1, []⟩⟩ : MainRow × MetRow)
        ∈ ([⟨⟨1, ⟨0, 86399⟩⟩, ⟨1, []⟩⟩] : List (MainRow × MetRow))
      ∧ (0 : Int) ≤ 5
      ∧ ((⟨⟨1, ⟨0, 86399⟩⟩, ⟨1, []⟩⟩ : MainRow × MetRow).1.time.date = 0
          ∨ (⟨⟨1, ⟨0, 86399⟩⟩, ⟨1, []⟩⟩ : MainRow × MetRow).1.time.date = 5))
    ∧ (⟨⟨1, ⟨0, 86399⟩⟩, ⟨1, []⟩⟩ : MainRow × MetRow)
        ∈ dateFilter [⟨⟨1, ⟨0, 86399⟩⟩, ⟨1, []⟩⟩] 0 5 :=
  ⟨⟨by decide, by decide, Or.inl (by decide)⟩,
    C10_date_filter_inclusive [⟨⟨1, ⟨0, 86399⟩⟩, ⟨1, []⟩⟩] 0 5
      ⟨⟨1, ⟨0, 86399⟩⟩, ⟨1, []⟩⟩ (by decide) (by decide) (Or.inl (by decide))⟩

/-! ## Claim C8 -/

/-- Claim C8: whenever the download button has been clicked, the export renders
the currently displayed figure — unchanged — to a 1920×1080 PNG at 2× scale,
and the filename contains the active metric name, the selected sensor, both
RPM bin edges, and the moving-average window in days. -/
theorem C8_export_spec (n_clicks : Nat) (metric sensor : String)
    (rpm_bin_halves ma_days : Nat) (figure : List Trace) (h : 0 < n_clicks) :
    ∃ payload,
      download_graph n_clicks metric sensor rpm_bin_halves ma_days figure = some payload
      ∧ payload.content.figure = figure
      ∧ payload.content.format = "png"
      ∧ payload.content.width = 1920
      ∧ payload.content.height = 1080
      ∧ payload.content.scale = 2
      ∧ strContains payload.filename metric
      ∧ strContains payload.filename sensor
      ∧ strContains payload.filename (showHalfUnits rpm_bin_halves)
      ∧ strContains payload.filename (showHalfUnits (rpm_bin_halves + 1))
      ∧ strContains payload.filename (toString ma_days) := by
  rw [download_graph, if_pos (Nat.pos_iff_ne_zero.mp h)]
  refine ⟨_, rfl, rfl, rfl, rfl, rfl, rfl, ?_, ?_, ?_, ?_, ?_⟩
  · refine ⟨"", "_Sensor_" ++ sensor ++ "_RPM_" ++ showHalfUnits rpm_bin_halves ++ "-"
      ++ showHalfUnits (rpm_bin_halves + 1) ++ "_MA_" ++ toString ma_days ++ "days.png", ?_⟩
    simp only [String.empty_append, String.append_assoc]
  · refine ⟨metric ++ "_Sensor_", "_RPM_" ++ showHalfUnits rpm_bin_halves ++ "-"
      ++ showHalfUnits (rpm_bin_halves + 1) ++ "_MA_" ++ toString ma_days ++ "days.png", ?_⟩
    simp only [String.append_assoc]
  · refine ⟨metric ++ "_Sensor_" ++ sensor ++ "_RPM_", "-"
      ++ showHalfUnits (rpm_bin_halves + 1) ++ "_MA_" ++ toString ma_days ++ "days.png", ?_⟩
    simp only [String.append_assoc]
  · refine ⟨metric ++ "_Sensor_" ++ sensor ++ "_RPM_" ++ showHalfUnits rpm_bin_halves
      ++ "-", "_MA_" ++ toString ma_days ++ "days.png", ?_⟩
    simp only [String.append_assoc]
  · refine ⟨metric ++ "_Sensor_" ++ sensor ++ "_RPM_" ++ showHalfUnits rpm_bin_halves
      ++ "-" ++ showHalfUnits (rpm_bin_halves + 1) ++ "_MA_", "days.png", ?_⟩
    simp only [String.append_assoc]

theorem C8_export_spec_witness :
    0 < 1
    ∧ ∃ payload,
        download_graph 1 "std_dev" "s1" 20 7 [] = some payload
        ∧ payload.content.figure = []
        ∧ payload.content.format = "png"
        ∧ payload.content.width = 1920
        ∧ payload.content.height = 1080
        ∧ payload.content.scale = 2
        ∧ strContains payload.filename "std_dev"
        ∧ strContains payload.filename "s1"
        ∧ strContains payload.filename (showHalfUnits 20)
        ∧ strContains payload.filename (showHalfUnits 21)
        ∧ strContains payload.filename (toString 7) :=
  ⟨Nat.one_pos, C8_export_spec 1 "std_dev" "s1" 20 7 [] Nat.one_pos⟩

end Dashboard
